import Mathlib

/-!
Verification of the QEMULauncher repository (src/qemu_app.py) against its
natural-language specification.

The Python source is shallowly embedded: the command synthesizer
(`run_launcher`, lines 115-165), the capability probes
(`validate_qemu_executable`, `check_sdl_support`), the configuration store
(`load_config`, `save_config` over `configparser`), and the setup-form
acceptance check (`on_save`) become pure Lean functions.  External effects
(the filesystem, subprocess invocations, `os.path.expanduser`) are passed in
as explicit inputs: a subprocess invocation is summarized by a `RunOutcome`,
filesystem existence by a boolean oracle, and `expanduser` by a
`String → String` parameter applied exactly where the source applies it.
-/

namespace QemuApp

/-- Result of one subprocess invocation as observed by the Python caller:
the process completed with a return code and captured stdout/stderr, the
invocation hit its `timeout=` bound (Python raises `TimeoutExpired`), or some
other exception was raised (e.g. a missing executable). -/
inductive RunOutcome where
  | completed (returncode : Int) (stdout stderr : String)
  | timedOut
  | raised (msg : String)
deriving DecidableEq

/-- The configuration record, with exactly the fields and primitive types of
the dict built by `load_config` (lines 91-99) and `on_save` (lines 230-235). -/
structure LauncherConfig where
  arch : String
  qemu_executable : String
  disk_path : String
  firmware_path : String
  shared_dir_path : String
  mount_tag : String
  enable_webcam : Bool
  network_mode : String
  bridge_name : String
  enable_guest_agent : Bool
  enable_microphone : Bool
deriving DecidableEq

/-- Auxiliary: `needle.isPrefixOf`-based substring test on character lists,
the model of Python's `needle in hay` on strings. -/
def strSubList (needle : List Char) : List Char → Bool
  | [] => needle.isEmpty
  | c :: t => needle.isPrefixOf (c :: t) || strSubList needle t

/-- Model of Python's `needle in hay` substring membership on strings. -/
def pyIn (hay needle : String) : Bool := strSubList needle.toList hay.toList

/-- Model of Python's `str.lower()` (ASCII-relevant part, as `configparser`
and the SDL check apply it to ASCII output). -/
def pyLower (s : String) : String := ⟨s.data.map Char.toLower⟩

/-- The message of Python's `subprocess.TimeoutExpired` for the
`[path, "--version"]` invocation with `timeout=3`: its `__str__` is
`Command <cmd> timed out after <timeout> seconds` (the repr quoting of the
command list is elided here). -/
def timeoutMsg (path : String) : String :=
  "Command [" ++ path ++ ", --version] timed out after 3 seconds"

/-- `validate_qemu_executable` (lines 53-59).  The filesystem is the oracle
`exists_` (for `os.path.exists`), the `subprocess.run([path, "--version"],
timeout=3)` invocation is summarized by `outcome`.  Returns the
`(is_valid, error_msg)` pair of the source. -/
def validate_qemu_executable (exists_ : String → Bool) (path : String)
    (outcome : RunOutcome) : Bool × String :=
  if path = "" ∨ exists_ path = false then (false, "Executable file not found")
  else
    match outcome with
    | .completed rc _ stderr =>
        if rc = 0 then (true, "")
        else (false, "QEMU exited with an error:\n" ++ stderr.trim)
    | .timedOut => (false, "An unexpected validation error occurred: " ++ timeoutMsg path)
    | .raised msg => (false, "An unexpected validation error occurred: " ++ msg)

/-- `check_sdl_support` (lines 62-73): `subprocess.run([qemu, "-audiodev",
"help"], check=True, timeout=5)`; on success returns
`"sdl" in result.stdout.lower()`; `check=True` turns a nonzero exit into a
`CalledProcessError`, and every exception (timeout included) is caught and
yields `False`. -/
def check_sdl_support (outcome : RunOutcome) : Bool :=
  match outcome with
  | .completed rc stdout _ => if rc = 0 then pyIn (pyLower stdout) "sdl" else false
  | .timedOut => false
  | .raised _ => false

/-- Audio backend choice (line 134): `"sdl" if sdl_supported else "coreaudio"`. -/
def audioBackend (sdl_supported : Bool) : String :=
  if sdl_supported then "sdl" else "coreaudio"

/-- The `-audiodev` configuration string (lines 136-141): output parameters
always, input (microphone) parameters appended iff `enable_mic`. -/
def audio_config (backend : String) (enable_mic : Bool) : String :=
  if enable_mic then
    backend ++ ",id=snd0,out.frequency=48000,out.channels=2,out.format=s16,in.frequency=48000,in.channels=1,in.format=s16"
  else
    backend ++ ",id=snd0,out.frequency=48000,out.channels=2,out.format=s16"

/-- The unconditional head of the command (lines 119-124): executable,
machine/accel/CPU/SMP/memory baseline, firmware drive, disk device+drive,
display, GPU and input devices.  `eu` models `os.path.expanduser`. -/
def baseCommand (eu : String → String) (config : LauncherConfig) : List String :=
  [config.qemu_executable, "-M", "virt", "-accel", "hvf", "-cpu", "host",
   "-smp", "8", "-m", "24G",
   "-drive", "if=pflash,format=raw,readonly=on,file=" ++ eu config.firmware_path,
   "-device", "virtio-blk-pci,drive=disk0",
   "-drive", "id=disk0,if=none,format=vmdk,file=" ++ eu config.disk_path,
   "-display", "cocoa,show-cursor=on,full-screen=on",
   "-device", "virtio-gpu-pci", "-device", "virtio-keyboard-pci",
   "-device", "virtio-tablet-pci"]

/-- Webcam block (line 126): emitted iff `enable_webcam` is truthy. -/
def webcamBlock (config : LauncherConfig) : List String :=
  if config.enable_webcam then
    ["-device", "nec-usb-xhci,id=usb", "-device", "usb-camera,id=mycam,bus=usb.0"]
  else []

/-- Shared-folder block (line 127): guarded only by the truthiness of
`shared_dir_path` (a non-empty string); `mount_tag` is embedded in the
device token but not consulted by the guard. -/
def sharedFolderBlock (eu : String → String) (config : LauncherConfig) : List String :=
  if config.shared_dir_path = "" then []
  else
    ["-fsdev",
     "local,id=fsdev0,path=" ++ eu config.shared_dir_path ++ ",security_model=mapped-xattr",
     "-device",
     "virtio-9p-pci,fsdev=fsdev0,mount_tag=" ++ config.mount_tag]

/-- Guest-agent block (lines 128-129): emitted iff `enable_guest_agent`. -/
def guestAgentBlock (config : LauncherConfig) : List String :=
  if config.enable_guest_agent then
    ["-device", "virtio-serial", "-chardev", "spicevmc,id=spicechannel0,name=vdagent",
     "-device", "virtserialport,chardev=spicechannel0,name=com.redhat.spice.0"]
  else []

/-- Audio block (lines 132-142), given the already-computed result of the
SDL probe. -/
def audioBlock (config : LauncherConfig) (sdl_supported : Bool) : List String :=
  ["-audiodev", audio_config (audioBackend sdl_supported) config.enable_microphone,
   "-device", "virtio-sound-pci,audiodev=snd0"]

/-- Network block (lines 144-153): `vmnet-shared`, `bridge-existing`
(naming `bridge_name`), or the `else` branch for every other mode. -/
def networkBlock (config : LauncherConfig) : List String :=
  if config.network_mode = "vmnet-shared" then
    ["-netdev", "vmnet-shared,id=net0", "-device", "virtio-net-pci,netdev=net0"]
  else if config.network_mode = "bridge-existing" then
    ["-netdev", "bridge,id=net0,br=" ++ config.bridge_name,
     "-device", "virtio-net-pci,netdev=net0"]
  else
    ["-nic", "vmnet-bridged,ifname=en0"]

/-- The full synthesized token sequence of `run_launcher` (lines 119-153), in
the order the source extends `qemu_command` before `subprocess.Popen`. -/
def build_qemu_command (eu : String → String) (config : LauncherConfig)
    (sdl_supported : Bool) : List String :=
  baseCommand eu config ++ webcamBlock config ++ sharedFolderBlock eu config ++
    guestAgentBlock config ++ audioBlock config sdl_supported ++ networkBlock config

/-- The pre-launch guard and synthesis of `run_launcher` (lines 115-156): the
guard at lines 116-117 returns without spawning when the configuration is
absent or `disk_path` or `qemu_executable` is falsy (empty); otherwise the
synthesized command is handed to `subprocess.Popen`.  The returned value is
`none` when launch is declined and `some cmd` when `cmd` is spawned. -/
def run_launcher (eu : String → String) (config : Option LauncherConfig)
    (sdl_supported : Bool) : Option (List String) :=
  match config with
  | none => none
  | some c =>
      if c.disk_path = "" ∨ c.qemu_executable = "" then none
      else some (build_qemu_command eu c sdl_supported)

/-- Outcome of the setup form's save action. -/
inductive SaveOutcome where
  | accepted
  | rejected (msg : String)
deriving DecidableEq

/-- `on_save` (lines 229-244): rejects when any of the three required path
fields is empty, then rejects when `validate_qemu_executable` fails;
otherwise the configuration is persisted and launched (accepted). -/
def on_save (exists_ : String → Bool) (values : LauncherConfig)
    (outcome : RunOutcome) : SaveOutcome :=
  if values.qemu_executable = "" ∨ values.disk_path = "" ∨ values.firmware_path = "" then
    .rejected "QEMU, Disk, and Firmware paths must be specified."
  else
    let r := validate_qemu_executable exists_ values.qemu_executable outcome
    if r.1 then .accepted
    else .rejected ("Invalid QEMU executable.\n\n" ++ r.2)

/-!
Configuration store (`load_config` lines 87-99, `save_config` lines 101-105).

The spec places the literal on-disk text encoding out of scope ("any
key-value format suffices as long as the schema is preserved"), so the
persisted state is modelled at the key-value level of the `[VM]` section:
`none` when `CONFIG_FILE` does not exist, `some kvs` for the section's
(key, raw-string-value) pairs as written.  The `configparser` value
semantics around that key-value level are modelled faithfully:

* `save_config` assigns the stringified dict to the section, which runs
  `BasicInterpolation.before_set` on every value: a `%` that is part of
  neither `%%` nor a `%(name)s` reference raises `ValueError`;
* re-reading the written file strips leading/trailing whitespace from each
  value (`parsedRecord`);
* `config.get`/`config.getboolean` run `BasicInterpolation.before_get` on a
  present value: `%%` collapses to `%`, `%(name)s` is replaced by the
  referenced option of the same section (recursively, bounded by
  `MAX_INTERPOLATION_DEPTH = 10`), any other `%` raises
  `InterpolationSyntaxError`, and a missing referenced option raises
  `InterpolationMissingOptionError`; the fallback only covers a *missing*
  key; `getboolean` converts the interpolated text and raises `ValueError`
  when it is not in `BOOLEAN_STATES`.
-/

/-- Python whitespace characters relevant to `str.strip()` on config
values: space, tab, newline, carriage return, vertical tab, form feed. -/
def isPySpace (c : Char) : Bool :=
  c == ' ' || c == '\t' || c == '\n' || c == '\r' ||
    c == Char.ofNat 11 || c == Char.ofNat 12

/-- Python `str.strip()`: drop leading and trailing whitespace. -/
def pyStrip (s : String) : String :=
  ⟨((s.data.dropWhile isPySpace).reverse.dropWhile isPySpace).reverse⟩

/-- Scanner state for the `%(name)s` reference syntax: outside any
reference, just after `%`, inside the parenthesised name, or just after the
closing parenthesis. -/
inductive RefScan where
  | normal
  | sawPct
  | inRef (acc : List Char)
  | sawR (acc : List Char)

/-- The section as `config.read` parses the written file back: each value
with its surrounding whitespace stripped. -/
def parsedRecord (kvs : List (String × String)) : List (String × String) :=
  kvs.map (fun kv => (kv.1, pyStrip kv.2))

/-- `configparser`'s `BOOLEAN_STATES` lookup applied by `getboolean` after
lowercasing: `1/yes/true/on` are true, `0/no/false/off` are false, anything
else raises `ValueError`. -/
def boolStates (v : String) : Option Bool :=
  if v = "1" ∨ v = "yes" ∨ v = "true" ∨ v = "on" then some true
  else if v = "0" ∨ v = "no" ∨ v = "false" ∨ v = "off" then some false
  else none

/-- Error text standing for `InterpolationSyntaxError` raised when `%` is
followed by neither `%` nor `(`. -/
def eSyntax1 : String :=
  "InterpolationSyntaxError: percent must be followed by percent or open-paren"

/-- Error text standing for `InterpolationSyntaxError` raised on a bad
`%(name)s` reference. -/
def eSyntax2 : String :=
  "InterpolationSyntaxError: bad interpolation variable reference"

/-- Error text standing for `InterpolationMissingOptionError`. -/
def eMissing : String :=
  "InterpolationMissingOptionError: referenced option not found"

/-- Error text standing for `InterpolationDepthError`. -/
def eDepth : String := "InterpolationDepthError: interpolation too deep"

/-- One pass of `BasicInterpolation._interpolate_some` over a value:
`%%` emits `%`; `%(name)s` looks up the lowercased name among the section's
parsed values and splices it in, recursing through `nested` when the
referenced value itself contains `%`; any other use of `%` raises
`InterpolationSyntaxError`. -/
def interpGo (sect : List (String × String))
    (nested : String → Except String (List Char)) :
    RefScan → List Char → Except String (List Char)
  | .normal, [] => .ok []
  | .normal, c :: t =>
      if c = '%' then interpGo sect nested .sawPct t
      else do
        let r ← interpGo sect nested .normal t
        .ok (c :: r)
  | .sawPct, [] => .error eSyntax1
  | .sawPct, c :: t =>
      if c = '%' then do
        let r ← interpGo sect nested .normal t
        .ok ('%' :: r)
      else if c = '(' then interpGo sect nested (.inRef []) t
      else .error eSyntax1
  | .inRef _, [] => .error eSyntax2
  | .inRef acc, c :: t =>
      if c = ')' then
        if acc.isEmpty then .error eSyntax2
        else interpGo sect nested (.sawR acc) t
      else interpGo sect nested (.inRef (c :: acc)) t
  | .sawR _, [] => .error eSyntax2
  | .sawR acc, c :: t =>
      if c = 's' then
        match sect.lookup (pyLower ⟨acc.reverse⟩) with
        | none => .error eMissing
        | some v =>
            if v.data.contains '%' then do
              let tv ← nested v
              let r ← interpGo sect nested .normal t
              .ok (tv ++ r)
            else do
              let r ← interpGo sect nested .normal t
              .ok (v.data ++ r)
      else .error eSyntax2

/-- `_interpolate_some` with its depth bound: Python raises
`InterpolationDepthError` past `MAX_INTERPOLATION_DEPTH = 10` nested
references. -/
def before_get_value (sect : List (String × String)) :
    Nat → String → Except String (List Char)
  | 0, _ => .error eDepth
  | d + 1, v => interpGo sect (fun w => before_get_value sect d w) .normal v.data

/-- `BasicInterpolation.before_get` applied by `config.get` to a present
value. -/
def before_get (sect : List (String × String)) (v : String) :
    Except String String := do
  let r ← before_get_value sect 10 v
  .ok ⟨r⟩

/-- `config.get('VM', key, fallback=fb)`: the fallback is used when the key
(or the whole section) is missing; a present value is interpolated by
`before_get`, which can raise. -/
def cp_get (kvs : List (String × String)) (key fb : String) :
    Except String String :=
  match kvs.lookup key with
  | none => .ok fb
  | some v => before_get kvs v

/-- `config.getboolean('VM', key, fallback=fb)`: fallback when the key is
missing; a present value is interpolated by `before_get` (which can raise)
and then converted, raising `ValueError` (modelled as `Except.error`) when
the text is not in `BOOLEAN_STATES`. -/
def cp_getboolean (kvs : List (String × String)) (key : String) (fb : Bool) :
    Except String Bool :=
  match kvs.lookup key with
  | none => .ok fb
  | some v => do
      let iv ← before_get kvs v
      match boolStates (pyLower iv) with
      | some b => .ok b
      | none => .error ("Not a boolean: " ++ iv)

/-- `load_config` (lines 87-99): `none` file means `CONFIG_FILE.is_file()`
is false and `None` is returned; otherwise `config.read` parses the stored
section (stripping value whitespace) and each field is read with its
documented per-field fallback, in the source's dict order.  `home` models
`Path.home()`; the `shared_dir_path` default is
`str(Path.home() / "Documents")`. -/
def load_config (home : String) (file : Option (List (String × String))) :
    Except String (Option LauncherConfig) :=
  match file with
  | none => .ok none
  | some kvs => do
      let arch ← cp_get (parsedRecord kvs) "arch" "aarch64"
      let qemu ← cp_get (parsedRecord kvs) "qemu_executable" ""
      let disk ← cp_get (parsedRecord kvs) "disk_path" ""
      let fw ← cp_get (parsedRecord kvs) "firmware_path" ""
      let sh ← cp_get (parsedRecord kvs) "shared_dir_path" (home ++ "/Documents")
      let mt ← cp_get (parsedRecord kvs) "mount_tag" "host_share"
      let webcam ← cp_getboolean (parsedRecord kvs) "enable_webcam" false
      let nm ← cp_get (parsedRecord kvs) "network_mode" "user"
      let bn ← cp_get (parsedRecord kvs) "bridge_name" "bridge100"
      let agent ← cp_getboolean (parsedRecord kvs) "enable_guest_agent" false
      let mic ← cp_getboolean (parsedRecord kvs) "enable_microphone" false
      .ok (some
        { arch := arch
          qemu_executable := qemu
          disk_path := disk
          firmware_path := fw
          shared_dir_path := sh
          mount_tag := mt
          enable_webcam := webcam
          network_mode := nm
          bridge_name := bn
          enable_guest_agent := agent
          enable_microphone := mic })

/-- Decidable check that one key of a stored record either is absent or
holds a value `getboolean` can parse. -/
def boolFieldOk (kvs : List (String × String)) (key : String) : Bool :=
  match kvs.lookup key with
  | none => true
  | some v => (boolStates (pyLower v)).isSome

/-- A parsed section is percent-free: no value contains `%`, so every
`before_get` interpolation is the identity. -/
def pctFree (kvs : List (String × String)) : Bool :=
  kvs.all (fun kv => !(kv.2.data.contains '%'))

/-- The `__main__` dispatch (lines 262-267): run the setup UI when the
setup-complete marker is missing, the loaded configuration is absent, or
`--config` was passed; otherwise go straight to `run_launcher`. -/
inductive MainAction where
  | runSetupUi
  | runLaunch (config : LauncherConfig)
deriving DecidableEq

/-- Models lines 262-267 of the source. -/
def main_dispatch (setupComplete : Bool) (config : Option LauncherConfig)
    (configFlag : Bool) : MainAction :=
  match config with
  | none => .runSetupUi
  | some c =>
      if setupComplete = false ∨ configFlag = true then .runSetupUi
      else .runLaunch c

/-- Whether a subprocess invocation completed within its bound with a
success (zero) exit status. -/
def isSuccessRun : RunOutcome → Bool
  | .completed rc _ _ => if rc = 0 then true else false
  | .timedOut => false
  | .raised _ => false

/-- A well-formed everyday configuration, used to instantiate universally
quantified theorems at a concrete input. -/
def sampleConfig : LauncherConfig :=
  { arch := "aarch64"
    qemu_executable := "/opt/homebrew/bin/qemu-system-aarch64"
    disk_path := "/vm/disk.vmdk"
    firmware_path := "/vm/edk2-aarch64-code.fd"
    shared_dir_path := "/Users/u/Documents"
    mount_tag := "host_share"
    enable_webcam := false
    network_mode := "user"
    bridge_name := "bridge100"
    enable_guest_agent := false
    enable_microphone := false }

/-- A configuration whose shared directory is set while the mount tag is
empty. -/
def cfgSharedNoTag : LauncherConfig :=
  { sampleConfig with
    shared_dir_path := "/Users/u/Public"
    mount_tag := "" }

/-- A bridge-existing configuration naming `br0` whose executable-path field
happens to spell the user-NAT network token. -/
def cfgBridgeNicExe : LauncherConfig :=
  { sampleConfig with
    qemu_executable := "-nic"
    network_mode := "bridge-existing"
    bridge_name := "br0" }

/-- A bridge-existing configuration naming `br0`. -/
def cfgBridge : LauncherConfig :=
  { sampleConfig with
    network_mode := "bridge-existing"
    bridge_name := "br0" }

/-- A configuration with an empty firmware path but non-empty disk and
executable paths. -/
def cfgNoFirmware : LauncherConfig :=
  { sampleConfig with firmware_path := "" }

/-- A filesystem in which only the hypervisor executable exists. -/
def fsOnlyExe : String → Bool := fun p => p == "/opt/homebrew/bin/qemu-system-aarch64"

/-! ## Helper lemmas -/

/-- A substring of `h` is a substring of `pre ++ h`. -/
theorem strSubList_append_left (n pre h : List Char) (hh : strSubList n h = true) :
    strSubList n (pre ++ h) = true := by
  induction pre with
  | nil => exact hh
  | cons c t ih =>
      simp only [List.cons_append, strSubList, Bool.or_eq_true]
      exact Or.inr ih

/-- Every list is a prefix of itself (boolean form). -/
theorem isPrefixOf_self (l : List Char) : l.isPrefixOf l = true := by
  induction l with
  | nil => rfl
  | cons c t ih => simp [List.isPrefixOf, ih]

/-- `l` occurs as a substring of `pre ++ l`. -/
theorem strSubList_self_append (n pre : List Char) :
    strSubList n (pre ++ n) = true := by
  apply strSubList_append_left
  cases n with
  | nil => rfl
  | cons c t => simp [strSubList, isPrefixOf_self]

/-- A string strictly shorter than the appended suffix differs from the
append. -/
theorem ne_append_of_lt_right (p s t : String) (h : t.length < s.length) :
    t ≠ p ++ s := by
  intro he
  have hl := congrArg String.length he
  rw [String.length_append] at hl
  omega

/-- A string strictly shorter than the appended head differs from the
append. -/
theorem ne_append_of_lt_left (p s t : String) (h : t.length < p.length) :
    t ≠ p ++ s := by
  intro he
  have hl := congrArg String.length he
  rw [String.length_append] at hl
  omega

/-! ## Claim C4 -/

/-- Claim C4: command synthesis is a pure, deterministic function of the
configuration and the probe result — identical inputs yield the identical
token sequence — and the sequence is the fixed concatenation of the
baseline, webcam, shared-folder, guest-agent, audio and network sections in
that order. -/
theorem c4_synthesis_deterministic (eu : String → String)
    (c c' : LauncherConfig) (p p' : Bool) (hc : c = c') (hp : p = p') :
    build_qemu_command eu c p = build_qemu_command eu c' p' ∧
    build_qemu_command eu c p =
      baseCommand eu c ++ webcamBlock c ++ sharedFolderBlock eu c ++
        guestAgentBlock c ++ audioBlock c p ++ networkBlock c := by
  subst hc; subst hp
  exact ⟨rfl, rfl⟩

/-- Witness for C4 at a concrete configuration. -/
theorem c4_synthesis_deterministic_witness :
    build_qemu_command id sampleConfig true = build_qemu_command id sampleConfig true ∧
    build_qemu_command id sampleConfig true =
      baseCommand id sampleConfig ++ webcamBlock sampleConfig ++
        sharedFolderBlock id sampleConfig ++ guestAgentBlock sampleConfig ++
        audioBlock sampleConfig true ++ networkBlock sampleConfig :=
  c4_synthesis_deterministic id sampleConfig sampleConfig true true rfl rfl

/-! ## Claim C5 -/

/-- Claim C5: the synthesized plan carries the audio configuration token;
the backend names SDL exactly when `sdlAudioAvailable` is true and the
platform-native `coreaudio` fallback otherwise (never SDL when the probe is
false), and the channel configuration contains microphone input parameters
iff `enableMicrophone` is true. -/
theorem c5_audio_block (eu : String → String) (config : LauncherConfig) (sdl : Bool) :
    audio_config (audioBackend sdl) config.enable_microphone ∈
      build_qemu_command eu config sdl ∧
    audioBackend true = "sdl" ∧
    audioBackend false = "coreaudio" ∧
    audioBackend false ≠ "sdl" ∧
    pyIn (audio_config (audioBackend sdl) config.enable_microphone) ",in." =
      config.enable_microphone := by
  refine ⟨?_, rfl, rfl, by decide, ?_⟩
  · simp [build_qemu_command, audioBlock]
  · cases sdl <;> cases hm : config.enable_microphone <;> decide

/-- Witness for C5 at a concrete configuration and probe result. -/
theorem c5_audio_block_witness :
    audio_config (audioBackend false) sampleConfig.enable_microphone ∈
      build_qemu_command id sampleConfig false ∧
    audioBackend true = "sdl" ∧
    audioBackend false = "coreaudio" ∧
    audioBackend false ≠ "sdl" ∧
    pyIn (audio_config (audioBackend false) sampleConfig.enable_microphone) ",in." =
      sampleConfig.enable_microphone :=
  c5_audio_block id sampleConfig false

/-! ## Claim C8 -/

/-- Claim C8: `probeAudioBackend` (`check_sdl_support`) is a total boolean
function of the invocation outcome: it returns true exactly when the
invocation completed with a zero exit status and the backend name `sdl`
appears case-insensitively in the captured stdout; every failing outcome
(timeout, nonzero exit, raised exception) yields `false`. -/
theorem c8_sdl_probe_total (o : RunOutcome) :
    check_sdl_support o = true ↔
      ∃ out err, o = .completed 0 out err ∧ pyIn (pyLower out) "sdl" = true := by
  cases o with
  | completed rc out err =>
      simp only [check_sdl_support]
      constructor
      · intro h
        by_cases hrc : rc = 0
        · subst hrc
          exact ⟨out, err, rfl, by simpa using h⟩
        · simp [hrc] at h
      · rintro ⟨out', err', heq, hp⟩
        cases heq
        simpa using hp
  | timedOut => simp [check_sdl_support]
  | raised m => simp [check_sdl_support]

/-- Witness for C8 at a concrete successful enumeration output. -/
theorem c8_sdl_probe_total_witness :
    check_sdl_support (.completed 0 "Available audio backends: SDL coreaudio" "") = true ↔
      ∃ out err,
        (RunOutcome.completed 0 "Available audio backends: SDL coreaudio" "") =
          .completed 0 out err ∧ pyIn (pyLower out) "sdl" = true :=
  c8_sdl_probe_total (.completed 0 "Available audio backends: SDL coreaudio" "")

/-! ## Claim C10 -/

/-- Claim C10: the pre-launch guard of `run_launcher` declines (returns
without spawning) exactly when the configuration is absent or its disk-image
or executable path is empty; an empty firmware path does not prevent launch,
and on the ordinary-restart dispatch such a configuration proceeds to
synthesis and spawn. -/
theorem c10_prelaunch_guard (eu : String → String) (config : Option LauncherConfig)
    (sdl : Bool) :
    (run_launcher eu config sdl = none ↔
      config = none ∨ ∃ c, config = some c ∧ (c.disk_path = "" ∨ c.qemu_executable = "")) ∧
    (∀ c, config = some c → c.disk_path ≠ "" → c.qemu_executable ≠ "" →
      run_launcher eu config sdl = some (build_qemu_command eu c sdl)) ∧
    (∀ c, c.disk_path ≠ "" → c.qemu_executable ≠ "" → c.firmware_path = "" →
      main_dispatch true (some c) false = .runLaunch c ∧
      run_launcher eu (some c) sdl = some (build_qemu_command eu c sdl)) := by
  refine ⟨?_, ?_, ?_⟩
  · cases config with
    | none => simp [run_launcher]
    | some c =>
        simp only [run_launcher]
        by_cases h : c.disk_path = "" ∨ c.qemu_executable = "" <;> simp [h]
  · rintro c rfl hd hq
    simp [run_launcher, hd, hq]
  · intro c hd hq _
    refine ⟨by simp [main_dispatch], ?_⟩
    simp [run_launcher, hd, hq]

/-- Witness for C10: a configuration with empty firmware path but non-empty
disk and executable paths is launched on the ordinary-restart path. -/
theorem c10_prelaunch_guard_witness :
    (run_launcher id (some cfgNoFirmware) false = none ↔
      (some cfgNoFirmware = none ∨ ∃ c, some cfgNoFirmware = some c ∧
        (c.disk_path = "" ∨ c.qemu_executable = ""))) ∧
    cfgNoFirmware.firmware_path = "" ∧
    main_dispatch true (some cfgNoFirmware) false = .runLaunch cfgNoFirmware ∧
    run_launcher id (some cfgNoFirmware) false =
      some (build_qemu_command id cfgNoFirmware false) := by
  refine ⟨(c10_prelaunch_guard id (some cfgNoFirmware) false).1, rfl, ?_, ?_⟩
  · exact ((c10_prelaunch_guard id (some cfgNoFirmware) false).2.2 cfgNoFirmware
      (by decide) (by decide) rfl).1
  · exact ((c10_prelaunch_guard id (some cfgNoFirmware) false).2.2 cfgNoFirmware
      (by decide) (by decide) rfl).2

/-! ## Claim C7 -/

/-- Claim C7: `probeExecutable` (`validate_qemu_executable`) returns a
failure result — never a crash — exactly when the path does not exist or the
version-query invocation does not complete within its 3-time-unit bound with
a success exit status; on a nonzero exit the stderr output (stripped) is
embedded in the failure reason, and on timeout the reported reason names the
timeout. -/
theorem c7_probe_executable (exists_ : String → Bool) (path : String)
    (o : RunOutcome) (h0 : exists_ "" = false) :
    ((validate_qemu_executable exists_ path o).1 = false ↔
      (exists_ path = false ∨ isSuccessRun o = false)) ∧
    (∀ rc out err, o = .completed rc out err → rc ≠ 0 → exists_ path = true →
      (validate_qemu_executable exists_ path o).2 =
        "QEMU exited with an error:\n" ++ err.trim ∧
      pyIn (validate_qemu_executable exists_ path o).2 err.trim = true) ∧
    (o = .timedOut → exists_ path = true →
      pyIn (validate_qemu_executable exists_ path o).2
        "timed out after 3 seconds" = true) := by
  have hne : exists_ path = true → ¬(path = "" ∨ exists_ path = false) := by
    rintro hex (rfl | hf)
    · rw [h0] at hex; exact absurd hex (by decide)
    · rw [hex] at hf; exact absurd hf (by decide)
  refine ⟨?_, ?_, ?_⟩
  · by_cases hc : path = "" ∨ exists_ path = false
    · simp only [validate_qemu_executable, if_pos hc]
      constructor
      · intro _
        rcases hc with rfl | hf
        · exact Or.inl h0
        · exact Or.inl hf
      · intro _; trivial
    · simp only [validate_qemu_executable, if_neg hc]
      have hex : exists_ path = true := by
        cases hb : exists_ path
        · exact absurd (Or.inr hb) hc
        · rfl
      cases o with
      | completed rc out err =>
          by_cases hrc : rc = 0
          · subst hrc
            simp [isSuccessRun, hex]
          · simp [hrc, isSuccessRun, hex]
      | timedOut => simp [isSuccessRun, hex]
      | raised m => simp [isSuccessRun, hex]
  · rintro rc out err rfl hrc hex
    simp only [validate_qemu_executable, if_neg (hne hex), if_neg hrc]
    refine ⟨by trivial, ?_⟩
    simp only [pyIn]
    rw [show ("QEMU exited with an error:\n" ++ err.trim).toList =
      "QEMU exited with an error:\n".toList ++ err.trim.toList from
      String.data_append ..]
    exact strSubList_self_append _ _
  · rintro rfl hex
    simp only [validate_qemu_executable, if_neg (hne hex)]
    simp only [pyIn, timeoutMsg]
    rw [show ("An unexpected validation error occurred: " ++
        ("Command [" ++ path ++ ", --version] timed out after 3 seconds")).toList =
      ("An unexpected validation error occurred: ".toList ++
        ("Command [".toList ++ path.toList)) ++
        ", --version] timed out after 3 seconds".toList by
      simp [String.data_append, List.append_assoc]]
    apply strSubList_append_left
    decide

/-- Witness for C7: a concrete filesystem, path and timed-out invocation. -/
theorem c7_probe_executable_witness :
    ((validate_qemu_executable fsOnlyExe "/opt/homebrew/bin/qemu-system-aarch64"
        .timedOut).1 = false ↔
      (fsOnlyExe "/opt/homebrew/bin/qemu-system-aarch64" = false ∨
        isSuccessRun .timedOut = false)) ∧
    (∀ rc out err, RunOutcome.timedOut = .completed rc out err → rc ≠ 0 →
      fsOnlyExe "/opt/homebrew/bin/qemu-system-aarch64" = true →
      (validate_qemu_executable fsOnlyExe "/opt/homebrew/bin/qemu-system-aarch64"
          .timedOut).2 = "QEMU exited with an error:\n" ++ err.trim ∧
      pyIn (validate_qemu_executable fsOnlyExe "/opt/homebrew/bin/qemu-system-aarch64"
          .timedOut).2 err.trim = true) ∧
    (RunOutcome.timedOut = .timedOut →
      fsOnlyExe "/opt/homebrew/bin/qemu-system-aarch64" = true →
      pyIn (validate_qemu_executable fsOnlyExe "/opt/homebrew/bin/qemu-system-aarch64"
          .timedOut).2 "timed out after 3 seconds" = true) :=
  c7_probe_executable fsOnlyExe "/opt/homebrew/bin/qemu-system-aarch64"
    .timedOut (by decide)

/-! ## Claim C2 -/

/-- Claim C2 counterexample: `on_save` accepts a candidate configuration
whose disk-image path names a file that does not exist on the (modelled)
filesystem — the file- and directory-existence checks the claim requires are
not performed.  `fsOnlyExe` contains only the executable; the probe
completes successfully; the configuration is nevertheless accepted. -/
theorem c2_counterexample :
    on_save fsOnlyExe sampleConfig (.completed 0 "QEMU emulator version 9.0" "") =
      .accepted ∧
    sampleConfig.disk_path = "/vm/disk.vmdk" ∧
    fsOnlyExe "/vm/disk.vmdk" = false ∧
    sampleConfig.shared_dir_path = "/Users/u/Documents" ∧
    fsOnlyExe "/Users/u/Documents" = false := by
  decide

/-- Claim C2 amended: `Validating → ReadyToLaunch` (acceptance by `on_save`)
holds exactly when the three required paths are non-empty and
`probeExecutable` succeeds (which itself requires the executable path to
exist); existence of the disk image, of the firmware image, and of the
shared directory is not checked. -/
theorem c2_validation_amended (exists_ : String → Bool) (values : LauncherConfig)
    (o : RunOutcome) :
    on_save exists_ values o = .accepted ↔
      (values.qemu_executable ≠ "" ∧ values.disk_path ≠ "" ∧ values.firmware_path ≠ "" ∧
        (validate_qemu_executable exists_ values.qemu_executable o).1 = true) := by
  by_cases hp : values.qemu_executable = "" ∨ values.disk_path = "" ∨
      values.firmware_path = ""
  · simp only [on_save, if_pos hp]
    constructor
    · intro h; cases h
    · rintro ⟨h1, h2, h3, _⟩
      rcases hp with h | h | h
      · exact absurd h h1
      · exact absurd h h2
      · exact absurd h h3
  · push_neg at hp
    obtain ⟨h1, h2, h3⟩ := hp
    simp only [on_save, if_neg (by tauto : ¬(values.qemu_executable = "" ∨
      values.disk_path = "" ∨ values.firmware_path = ""))]
    by_cases hv : (validate_qemu_executable exists_ values.qemu_executable o).1
    · simp [hv, h1, h2, h3]
    · simp [hv, h1, h2, h3]

/-- Witness for C2's amended statement at a concrete accepted input. -/
theorem c2_validation_amended_witness :
    on_save fsOnlyExe sampleConfig (.completed 0 "v" "") = .accepted ↔
      (sampleConfig.qemu_executable ≠ "" ∧ sampleConfig.disk_path ≠ "" ∧
        sampleConfig.firmware_path ≠ "" ∧
        (validate_qemu_executable fsOnlyExe sampleConfig.qemu_executable
          (.completed 0 "v" "")).1 = true) :=
  c2_validation_amended fsOnlyExe sampleConfig (.completed 0 "v" "")

/-! ## Claim C1 -/

/-- Claim C1 counterexample: a configuration with a non-empty
`sharedDirectoryPath` and an *empty* `mountTag` still yields a plan with the
shared-folder block — line 127 guards the block on `shared_dir_path` alone
and never consults `mount_tag`. -/
theorem c1_counterexample :
    cfgSharedNoTag.shared_dir_path ≠ "" ∧
    cfgSharedNoTag.mount_tag = "" ∧
    sharedFolderBlock id cfgSharedNoTag ≠ [] ∧
    "-fsdev" ∈ build_qemu_command id cfgSharedNoTag false ∧
    "virtio-9p-pci,fsdev=fsdev0,mount_tag=" ∈ build_qemu_command id cfgSharedNoTag false := by
  decide

/-- Claim C1 amended: the shared-folder block is emitted iff
`sharedDirectoryPath` is non-empty; `mountTag` is not consulted by the
guard, so a non-empty `sharedDirectoryPath` with an empty `mountTag` still
emits the block (tagging the passthrough device with the empty tag). -/
theorem c1_shared_folder_amended (eu : String → String) (config : LauncherConfig)
    (sdl : Bool) :
    (sharedFolderBlock eu config = [] ↔ config.shared_dir_path = "") ∧
    (config.shared_dir_path = "" →
      build_qemu_command eu config sdl =
        baseCommand eu config ++ webcamBlock config ++ guestAgentBlock config ++
          audioBlock config sdl ++ networkBlock config) ∧
    (config.shared_dir_path ≠ "" →
      ("virtio-9p-pci,fsdev=fsdev0,mount_tag=" ++ config.mount_tag) ∈
        build_qemu_command eu config sdl) := by
  refine ⟨?_, ?_, ?_⟩
  · by_cases h : config.shared_dir_path = "" <;> simp [sharedFolderBlock, h]
  · intro h
    simp [build_qemu_command, sharedFolderBlock, h]
  · intro h
    simp [build_qemu_command, sharedFolderBlock, h]

/-- Witness for C1's amended statement at a concrete configuration. -/
theorem c1_shared_folder_amended_witness :
    (sharedFolderBlock id cfgSharedNoTag = [] ↔ cfgSharedNoTag.shared_dir_path = "") ∧
    (cfgSharedNoTag.shared_dir_path = "" →
      build_qemu_command id cfgSharedNoTag false =
        baseCommand id cfgSharedNoTag ++ webcamBlock cfgSharedNoTag ++
          guestAgentBlock cfgSharedNoTag ++ audioBlock cfgSharedNoTag false ++
          networkBlock cfgSharedNoTag) ∧
    (cfgSharedNoTag.shared_dir_path ≠ "" →
      ("virtio-9p-pci,fsdev=fsdev0,mount_tag=" ++ cfgSharedNoTag.mount_tag) ∈
        build_qemu_command id cfgSharedNoTag false) :=
  c1_shared_folder_amended id cfgSharedNoTag false

/-! ## Claim C6 -/

/-- Claim C6 counterexample: with `networkMode = bridge-existing` and
`bridgeName = "br0"` the claim asserts that no user-NAT token appears
anywhere in the plan; but the executable-path field is emitted verbatim as
the first token, so a configuration whose executable path spells `-nic`
places that user-NAT token in the plan. -/
theorem c6_counterexample :
    cfgBridgeNicExe.network_mode = "bridge-existing" ∧
    cfgBridgeNicExe.bridge_name = "br0" ∧
    "-nic" ∈ build_qemu_command id cfgBridgeNicExe false := by
  decide

/-- Claim C6 amended: for a `bridge-existing` configuration naming `br0`
whose executable-path field does not itself spell one of the other network
variants' tokens, the network section is exactly the bridged block naming
`br0`, and neither the vmnet-shared variant's distinctive token nor either
user-NAT token appears anywhere in the plan. -/
theorem c6_bridge_network_amended (eu : String → String) (config : LauncherConfig)
    (sdl : Bool)
    (hm : config.network_mode = "bridge-existing") (hb : config.bridge_name = "br0")
    (h1 : config.qemu_executable ≠ "-nic")
    (h2 : config.qemu_executable ≠ "vmnet-bridged,ifname=en0")
    (h3 : config.qemu_executable ≠ "vmnet-shared,id=net0") :
    networkBlock config =
      ["-netdev", "bridge,id=net0,br=br0", "-device", "virtio-net-pci,netdev=net0"] ∧
    "bridge,id=net0,br=br0" ∈ build_qemu_command eu config sdl ∧
    "vmnet-shared,id=net0" ∉ build_qemu_command eu config sdl ∧
    "-nic" ∉ build_qemu_command eu config sdl ∧
    "vmnet-bridged,ifname=en0" ∉ build_qemu_command eu config sdl := by
  refine ⟨by simp [networkBlock, hm, hb], ?_, ?_, ?_, ?_⟩
  · simp [build_qemu_command, networkBlock, hm, hb]
  · have a1 : ∀ x : String,
        ("vmnet-shared,id=net0" : String) ≠ "if=pflash,format=raw,readonly=on,file=" ++ x :=
      fun x => ne_append_of_lt_left _ _ _ (by decide)
    have a2 : ∀ x : String,
        ("vmnet-shared,id=net0" : String) ≠ "id=disk0,if=none,format=vmdk,file=" ++ x :=
      fun x => ne_append_of_lt_left _ _ _ (by decide)
    have a3 : ∀ x : String,
        ("vmnet-shared,id=net0" : String) ≠ x ++ ",security_model=mapped-xattr" :=
      fun x => ne_append_of_lt_right _ _ _ (by decide)
    have a4 : ∀ x : String,
        ("vmnet-shared,id=net0" : String) ≠ "virtio-9p-pci,fsdev=fsdev0,mount_tag=" ++ x :=
      fun x => ne_append_of_lt_left _ _ _ (by decide)
    have a5 : ∀ x : String, ("vmnet-shared,id=net0" : String) ≠
        x ++ ",id=snd0,out.frequency=48000,out.channels=2,out.format=s16" :=
      fun x => ne_append_of_lt_right _ _ _ (by decide)
    have a6 : ∀ x : String, ("vmnet-shared,id=net0" : String) ≠
        x ++ ",id=snd0,out.frequency=48000,out.channels=2,out.format=s16,in.frequency=48000,in.channels=1,in.format=s16" :=
      fun x => ne_append_of_lt_right _ _ _ (by decide)
    have a7 : ("vmnet-shared,id=net0" : String) ≠ "bridge,id=net0,br=" ++ "br0" := by decide
    cases hw : config.enable_webcam <;> cases hg : config.enable_guest_agent <;>
      cases hmi : config.enable_microphone <;> cases sdl <;>
      by_cases hs : config.shared_dir_path = "" <;>
      simp [build_qemu_command, baseCommand, webcamBlock, sharedFolderBlock,
        guestAgentBlock, audioBlock, audio_config, audioBackend, networkBlock,
        hm, hb, hw, hg, hmi, hs, Ne.symm h3, a1, a2, a3, a4, a5, a6, a7]
  · have a1 : ∀ x : String,
        ("-nic" : String) ≠ "if=pflash,format=raw,readonly=on,file=" ++ x :=
      fun x => ne_append_of_lt_left _ _ _ (by decide)
    have a2 : ∀ x : String,
        ("-nic" : String) ≠ "id=disk0,if=none,format=vmdk,file=" ++ x :=
      fun x => ne_append_of_lt_left _ _ _ (by decide)
    have a3 : ∀ x : String,
        ("-nic" : String) ≠ x ++ ",security_model=mapped-xattr" :=
      fun x => ne_append_of_lt_right _ _ _ (by decide)
    have a4 : ∀ x : String,
        ("-nic" : String) ≠ "virtio-9p-pci,fsdev=fsdev0,mount_tag=" ++ x :=
      fun x => ne_append_of_lt_left _ _ _ (by decide)
    have a5 : ∀ x : String, ("-nic" : String) ≠
        x ++ ",id=snd0,out.frequency=48000,out.channels=2,out.format=s16" :=
      fun x => ne_append_of_lt_right _ _ _ (by decide)
    have a6 : ∀ x : String, ("-nic" : String) ≠
        x ++ ",id=snd0,out.frequency=48000,out.channels=2,out.format=s16,in.frequency=48000,in.channels=1,in.format=s16" :=
      fun x => ne_append_of_lt_right _ _ _ (by decide)
    have a7 : ("-nic" : String) ≠ "bridge,id=net0,br=" ++ "br0" := by decide
    cases hw : config.enable_webcam <;> cases hg : config.enable_guest_agent <;>
      cases hmi : config.enable_microphone <;> cases sdl <;>
      by_cases hs : config.shared_dir_path = "" <;>
      simp [build_qemu_command, baseCommand, webcamBlock, sharedFolderBlock,
        guestAgentBlock, audioBlock, audio_config, audioBackend, networkBlock,
        hm, hb, hw, hg, hmi, hs, Ne.symm h1, a1, a2, a3, a4, a5, a6, a7]
  · have a1 : ∀ x : String,
        ("vmnet-bridged,ifname=en0" : String) ≠ "if=pflash,format=raw,readonly=on,file=" ++ x :=
      fun x => ne_append_of_lt_left _ _ _ (by decide)
    have a2 : ∀ x : String,
        ("vmnet-bridged,ifname=en0" : String) ≠ "id=disk0,if=none,format=vmdk,file=" ++ x :=
      fun x => ne_append_of_lt_left _ _ _ (by decide)
    have a3 : ∀ x : String,
        ("vmnet-bridged,ifname=en0" : String) ≠ x ++ ",security_model=mapped-xattr" :=
      fun x => ne_append_of_lt_right _ _ _ (by decide)
    have a4 : ∀ x : String,
        ("vmnet-bridged,ifname=en0" : String) ≠ "virtio-9p-pci,fsdev=fsdev0,mount_tag=" ++ x :=
      fun x => ne_append_of_lt_left _ _ _ (by decide)
    have a5 : ∀ x : String, ("vmnet-bridged,ifname=en0" : String) ≠
        x ++ ",id=snd0,out.frequency=48000,out.channels=2,out.format=s16" :=
      fun x => ne_append_of_lt_right _ _ _ (by decide)
    have a6 : ∀ x : String, ("vmnet-bridged,ifname=en0" : String) ≠
        x ++ ",id=snd0,out.frequency=48000,out.channels=2,out.format=s16,in.frequency=48000,in.channels=1,in.format=s16" :=
      fun x => ne_append_of_lt_right _ _ _ (by decide)
    have a7 : ("vmnet-bridged,ifname=en0" : String) ≠ "bridge,id=net0,br=" ++ "br0" := by decide
    cases hw : config.enable_webcam <;> cases hg : config.enable_guest_agent <;>
      cases hmi : config.enable_microphone <;> cases sdl <;>
      by_cases hs : config.shared_dir_path = "" <;>
      simp [build_qemu_command, baseCommand, webcamBlock, sharedFolderBlock,
        guestAgentBlock, audioBlock, audio_config, audioBackend, networkBlock,
        hm, hb, hw, hg, hmi, hs, Ne.symm h2, a1, a2, a3, a4, a5, a6, a7]

/-- Witness for C6's amended statement at a concrete configuration. -/
theorem c6_bridge_network_amended_witness :
    networkBlock cfgBridge =
      ["-netdev", "bridge,id=net0,br=br0", "-device", "virtio-net-pci,netdev=net0"] ∧
    "bridge,id=net0,br=br0" ∈ build_qemu_command id cfgBridge false ∧
    "vmnet-shared,id=net0" ∉ build_qemu_command id cfgBridge false ∧
    "-nic" ∉ build_qemu_command id cfgBridge false ∧
    "vmnet-bridged,ifname=en0" ∉ build_qemu_command id cfgBridge false :=
  c6_bridge_network_amended id cfgBridge false rfl rfl (by decide) (by decide)
    (by decide)

/-! ## Store lemmas -/

/-- `Except` bind on a success value. -/
theorem exceptBind_ok {ε α β : Type} (a : α) (f : α → Except ε β) :
    Bind.bind (Except.ok a) f = f a := rfl

/-- A cons list without `%` has a non-`%` head and a `%`-free tail. -/
theorem contains_pct_cons {c : Char} {t : List Char}
    (h : (c :: t).contains '%' = false) : c ≠ '%' ∧ t.contains '%' = false := by
  by_cases hc : c = '%'
  · subst hc
    simp [List.contains, List.elem] at h
  · have hb : ('%' == c) = false := by
      exact beq_eq_false_iff_ne.mpr (Ne.symm hc)
    refine ⟨hc, ?_⟩
    simpa [List.contains, List.elem, hb] using h

/-- Interpolation is the identity on a `%`-free value. -/
theorem interpGo_noPct (sect : List (String × String))
    (nested : String → Except String (List Char)) (l : List Char)
    (h : l.contains '%' = false) :
    interpGo sect nested .normal l = .ok l := by
  induction l with
  | nil => rfl
  | cons c t ih =>
      obtain ⟨hc, ht⟩ := contains_pct_cons h
      simp [interpGo, hc, ih ht, exceptBind_ok]

/-- `before_get` is the identity on a `%`-free value. -/
theorem before_get_noPct (sect : List (String × String)) (v : String)
    (h : v.data.contains '%' = false) : before_get sect v = .ok v := by
  have h10 : before_get_value sect 10 v =
      interpGo sect (fun w => before_get_value sect 9 w) .normal v.data := rfl
  simp only [before_get, h10, interpGo_noPct _ _ _ h, exceptBind_ok]

/-- Every value looked up in a percent-free section is `%`-free. -/
theorem pctFree_lookup (kvs : List (String × String)) (k : String) (v : String)
    (hl : kvs.lookup k = some v) (hp : pctFree kvs = true) :
    v.data.contains '%' = false := by
  induction kvs with
  | nil => cases hl
  | cons kv rest ih =>
      obtain ⟨k2, v2⟩ := kv
      rw [pctFree, List.all_cons, Bool.and_eq_true] at hp
      obtain ⟨hd, tl⟩ := hp
      rw [List.lookup_cons] at hl
      cases hb : (k == k2) with
      | true =>
          rw [hb] at hl
          cases hl
          simpa using hd
      | false =>
          rw [hb] at hl
          exact ih hl (by rw [pctFree]; exact tl)

/-- In a percent-free section, `config.get` reduces to lookup with
fallback. -/
theorem cp_get_pctFree (S : List (String × String)) (k fb : String)
    (hS : pctFree S = true) :
    cp_get S k fb = .ok ((S.lookup k).getD fb) := by
  cases hl : S.lookup k with
  | none => simp [cp_get, hl]
  | some v => simp [cp_get, hl, before_get_noPct _ _ (pctFree_lookup _ _ _ hl hS)]

/-- In a percent-free section, `getboolean` succeeds on an absent or
parsable field. -/
theorem cp_getboolean_pctFree (S : List (String × String)) (k : String) (fb : Bool)
    (hS : pctFree S = true) (hb : boolFieldOk S k = true) :
    ∃ b, cp_getboolean S k fb = .ok b ∧ (S.lookup k = none → b = fb) := by
  unfold boolFieldOk at hb
  cases hl : S.lookup k with
  | none => exact ⟨fb, by simp [cp_getboolean, hl], fun _ => rfl⟩
  | some v =>
      rw [hl] at hb
      dsimp only at hb
      cases hbs : boolStates (pyLower v) with
      | none => rw [hbs] at hb; simp at hb
      | some b =>
          refine ⟨b, ?_, fun hn => Option.noConfusion hn⟩
          simp [cp_getboolean, hl, before_get_noPct _ _ (pctFree_lookup _ _ _ hl hS),
            hbs, exceptBind_ok]

/-- Claim C3 counterexample: an existing record whose `enable_webcam` field
holds text that `getboolean` cannot parse makes `load_config` raise a
`ValueError` instead of repairing the field to its default — load *can* fail
outright on a malformed record. -/
theorem c3_counterexample :
    load_config "/Users/u" (some [("enable_webcam", "maybe")]) =
      .error "Not a boolean: maybe" := by
  rfl

/-- Claim C3 amended: `load_config` returns absent when no persisted record
exists; whenever the parsed record's values contain no percent sign and each
boolean field is absent or parsable, load succeeds and repairs every absent
field to its documented per-field default; outside those conditions load can
fail instead of repairing (an unparsable boolean raises `ValueError`, a
stray `%` raises an interpolation error). -/
theorem c3_load_repair_amended (home : String) (kvs : List (String × String))
    (hp : pctFree (parsedRecord kvs) = true)
    (h1 : boolFieldOk (parsedRecord kvs) "enable_webcam" = true)
    (h2 : boolFieldOk (parsedRecord kvs) "enable_guest_agent" = true)
    (h3 : boolFieldOk (parsedRecord kvs) "enable_microphone" = true) :
    load_config home none = .ok none ∧
    ∃ c : LauncherConfig, load_config home (some kvs) = .ok (some c) ∧
      ((parsedRecord kvs).lookup "arch" = none → c.arch = "aarch64") ∧
      ((parsedRecord kvs).lookup "qemu_executable" = none → c.qemu_executable = "") ∧
      ((parsedRecord kvs).lookup "disk_path" = none → c.disk_path = "") ∧
      ((parsedRecord kvs).lookup "firmware_path" = none → c.firmware_path = "") ∧
      ((parsedRecord kvs).lookup "shared_dir_path" = none →
        c.shared_dir_path = home ++ "/Documents") ∧
      ((parsedRecord kvs).lookup "mount_tag" = none → c.mount_tag = "host_share") ∧
      ((parsedRecord kvs).lookup "enable_webcam" = none → c.enable_webcam = false) ∧
      ((parsedRecord kvs).lookup "network_mode" = none → c.network_mode = "user") ∧
      ((parsedRecord kvs).lookup "bridge_name" = none → c.bridge_name = "bridge100") ∧
      ((parsedRecord kvs).lookup "enable_guest_agent" = none →
        c.enable_guest_agent = false) ∧
      ((parsedRecord kvs).lookup "enable_microphone" = none →
        c.enable_microphone = false) := by
  obtain ⟨b1, e1, d1⟩ := cp_getboolean_pctFree (parsedRecord kvs) "enable_webcam" false hp h1
  obtain ⟨b2, e2, d2⟩ :=
    cp_getboolean_pctFree (parsedRecord kvs) "enable_guest_agent" false hp h2
  obtain ⟨b3, e3, d3⟩ :=
    cp_getboolean_pctFree (parsedRecord kvs) "enable_microphone" false hp h3
  have g1 := cp_get_pctFree (parsedRecord kvs) "arch" "aarch64" hp
  have g2 := cp_get_pctFree (parsedRecord kvs) "qemu_executable" "" hp
  have g3 := cp_get_pctFree (parsedRecord kvs) "disk_path" "" hp
  have g4 := cp_get_pctFree (parsedRecord kvs) "firmware_path" "" hp
  have g5 := cp_get_pctFree (parsedRecord kvs) "shared_dir_path" (home ++ "/Documents") hp
  have g6 := cp_get_pctFree (parsedRecord kvs) "mount_tag" "host_share" hp
  have g7 := cp_get_pctFree (parsedRecord kvs) "network_mode" "user" hp
  have g8 := cp_get_pctFree (parsedRecord kvs) "bridge_name" "bridge100" hp
  have hload : load_config home (some kvs) = .ok (some
      { arch := ((parsedRecord kvs).lookup "arch").getD "aarch64"
        qemu_executable := ((parsedRecord kvs).lookup "qemu_executable").getD ""
        disk_path := ((parsedRecord kvs).lookup "disk_path").getD ""
        firmware_path := ((parsedRecord kvs).lookup "firmware_path").getD ""
        shared_dir_path :=
          ((parsedRecord kvs).lookup "shared_dir_path").getD (home ++ "/Documents")
        mount_tag := ((parsedRecord kvs).lookup "mount_tag").getD "host_share"
        enable_webcam := b1
        network_mode := ((parsedRecord kvs).lookup "network_mode").getD "user"
        bridge_name := ((parsedRecord kvs).lookup "bridge_name").getD "bridge100"
        enable_guest_agent := b2
        enable_microphone := b3 }) := by
    simp only [load_config, g1, g2, g3, g4, g5, g6, e1, g7, g8, e2, e3, exceptBind_ok]
  refine ⟨rfl, _, hload, ?_, ?_, ?_, ?_, ?_, ?_, ?_, ?_, ?_, ?_, ?_⟩
  all_goals intro hn
  · simp [hn]
  · simp [hn]
  · simp [hn]
  · simp [hn]
  · simp [hn]
  · simp [hn]
  · exact d1 hn
  · simp [hn]
  · simp [hn]
  · exact d2 hn
  · exact d3 hn

/-- Witness for C3's amended statement at a concrete partially-filled
record. -/
theorem c3_load_repair_amended_witness :
    load_config "/Users/u" none = .ok none ∧
    ∃ c : LauncherConfig,
      load_config "/Users/u" (some [("arch", "x86_64"), ("enable_webcam", "yes")]) =
        .ok (some c) ∧
      ((parsedRecord [("arch", "x86_64"), ("enable_webcam", "yes")]).lookup "arch" =
        none → c.arch = "aarch64") ∧
      ((parsedRecord [("arch", "x86_64"), ("enable_webcam", "yes")]).lookup
        "qemu_executable" = none → c.qemu_executable = "") ∧
      ((parsedRecord [("arch", "x86_64"), ("enable_webcam", "yes")]).lookup
        "disk_path" = none → c.disk_path = "") ∧
      ((parsedRecord [("arch", "x86_64"), ("enable_webcam", "yes")]).lookup
        "firmware_path" = none → c.firmware_path = "") ∧
      ((parsedRecord [("arch", "x86_64"), ("enable_webcam", "yes")]).lookup
        "shared_dir_path" = none → c.shared_dir_path = "/Users/u" ++ "/Documents") ∧
      ((parsedRecord [("arch", "x86_64"), ("enable_webcam", "yes")]).lookup
        "mount_tag" = none → c.mount_tag = "host_share") ∧
      ((parsedRecord [("arch", "x86_64"), ("enable_webcam", "yes")]).lookup
        "enable_webcam" = none → c.enable_webcam = false) ∧
      ((parsedRecord [("arch", "x86_64"), ("enable_webcam", "yes")]).lookup
        "network_mode" = none → c.network_mode = "user") ∧
      ((parsedRecord [("arch", "x86_64"), ("enable_webcam", "yes")]).lookup
        "bridge_name" = none → c.bridge_name = "bridge100") ∧
      ((parsedRecord [("arch", "x86_64"), ("enable_webcam", "yes")]).lookup
        "enable_guest_agent" = none → c.enable_guest_agent = false) ∧
      ((parsedRecord [("arch", "x86_64"), ("enable_webcam", "yes")]).lookup
        "enable_microphone" = none → c.enable_microphone = false) :=
  c3_load_repair_amended "/Users/u" [("arch", "x86_64"), ("enable_webcam", "yes")]
    (by decide) (by decide) (by decide) (by decide)

/-! ## Claim C9 -/

end QemuApp